import Mathlib

/-!
Shallow embedding of `backpressure/backpressure.go` from the
chryscloud/go-microkit-plugins repository, together with theorems settling
the specification claims about the batching backpressure pipeline.

Modelling conventions:
* Go `int` becomes `Int`, Go `float64` becomes `Rat` (exact arithmetic; the
  binary floating-point error of `0.8` is many orders of magnitude below the
  granularity at which `math.Round` decides for all relevant magnitudes).
* Channels are modelled by their construction-time buffer capacities and by
  explicit event traces delivered to the goroutine loops; the `collectBatch`
  and `consumeBatch` loops become step functions folded over those traces.
* A nil Go pointer is `Option.none`; dereferencing it, or closing an
  already-closed channel, is a Go runtime panic, modelled with `Except`.
-/

namespace Backpressure

/-- Go runtime panics that the package can trigger. -/
inductive GoPanic where
  | nilPointerDereference
  | closeOfClosedChannel
deriving DecidableEq

/-- Errors of the package: `ErrBackPressureInit` (backpressure.go line 28) and a
sink failure returned by a `PutMulti` implementation. -/
inductive GoError where
  | errBackPressureInit
  | sinkError
deriving DecidableEq

/-- Levels of the `mclog.Logger` capability used by the package. -/
inductive LogLevel where
  | info
  | warn
  | error
deriving DecidableEq

/-- Go `math.Round`: round half away from zero. -/
def mathRound (q : Rat) : Int :=
  if 0 ≤ q then ⌊q + 1/2⌋ else -⌊-q + 1/2⌋

/-- `monitorWarningStart` (backpressure.go line 32): 80% upper limit before the
monitor starts warning. -/
def monitorWarningStart : Rat := 8/10

/-- The `Options` struct (backpressure.go lines 36-42). The logger field is
modelled by its presence (`Log = true` means a non-nil logger was supplied). -/
structure Options where
  BatchTimeMs : Rat
  BatchMaxSize : Int
  MaxWorkers : Int
  MaxBatchesInQueue : Int
  Log : Bool
deriving DecidableEq

/-- The `BatchTimeMs` option (lines 48-52). -/
def BatchTimeMs (batchTimeMs : Rat) : Options → Options :=
  fun args => { args with BatchTimeMs := batchTimeMs }

/-- The `BatchMaxSize` option (lines 55-59). -/
def BatchMaxSize (batchMaxSize : Int) : Options → Options :=
  fun args => { args with BatchMaxSize := batchMaxSize }

/-- The `Workers` option (lines 62-66). -/
def Workers (maxWorkers : Int) : Options → Options :=
  fun args => { args with MaxWorkers := maxWorkers }

/-- The `MaxBatchesInQueue` option (lines 69-73). -/
def MaxBatchesInQueue (maxBatchesInQueue : Int) : Options → Options :=
  fun args => { args with MaxBatchesInQueue := maxBatchesInQueue }

/-- The `Log` option (lines 76-80), modelled by logger presence. -/
def Log (log : Bool) : Options → Options :=
  fun args => { args with Log := log }

/-- The `PressureContext` struct (lines 83-94). The two data channels are
modelled by their buffer capacities fixed at construction; the done channel by
whether it has been closed. -/
structure PressureContext where
  inputChanCap : Nat
  batchChanCap : Int
  doneChanClosed : Bool
  batchTimeMs : Rat
  batchMaxSize : Int
  maxBatchesInQueue : Int
  maxWorkers : Int
  logPresent : Bool
deriving DecidableEq

/-- Defaults and option application from `NewBackpressureContext`
(lines 98-107): start from the default `Options` and apply each option
function in order. -/
def applyOptions (opts : List (Options → Options)) : Options :=
  opts.foldl (fun args op => op args)
    { MaxWorkers := 100
      MaxBatchesInQueue := 100
      BatchTimeMs := 100
      BatchMaxSize := 50
      Log := false }

/-- `NewBackpressureContext` (lines 97-130): applies the options, builds the
run context — an unbuffered input channel, a batch channel with capacity
`MaxBatchesInQueue`, an open done channel — and returns it with a nil error.
No validation of any option value is performed. -/
def NewBackpressureContext (opts : List (Options → Options)) :
    PressureContext × Option GoError :=
  let args := applyOptions opts
  ({ inputChanCap := 0
     batchChanCap := args.MaxBatchesInQueue
     doneChanClosed := false
     batchTimeMs := args.BatchTimeMs
     batchMaxSize := args.BatchMaxSize
     maxBatchesInQueue := args.MaxBatchesInQueue
     maxWorkers := args.MaxWorkers
     logPresent := args.Log }, none)

/-- Go field access `rc.log` on a possibly-nil `*PressureContext`: reading a
field through a nil pointer is a runtime panic. -/
def derefLogPresent (rc : Option PressureContext) : Except GoPanic Bool :=
  match rc with
  | some c => Except.ok c.logPresent
  | none => Except.error GoPanic.nilPointerDereference

/-- `Add` (lines 133-143). On a non-nil context the value is handed to the
collector over the unbuffered input channel and a nil error is returned. On a
nil context the else branch first evaluates `rc.log` — a field access through
the nil receiver — before it could return `ErrBackPressureInit`. -/
def Add {α : Type} (rc : Option PressureContext) (value : α) :
    Except GoPanic (Option GoError) :=
  if rc.isSome then
    Except.ok none
  else
    match derefLogPresent rc with
    | Except.error p => Except.error p
    | Except.ok _ => Except.ok (some GoError.errBackPressureInit)

/-- `Close` (lines 232-236): nil-guarded close of the done channel. Closing an
already-closed Go channel is a runtime panic. -/
def Close (rc : Option PressureContext) : Except GoPanic (Option PressureContext) :=
  match rc with
  | none => Except.ok none
  | some c =>
      if c.doneChanClosed then Except.error GoPanic.closeOfClosedChannel
      else Except.ok (some { c with doneChanClosed := true })

/-- One event a `select` iteration of `collectBatch` (lines 158-180) can react
to: a value received from the input channel (`ok = true`), the input channel
reported closed (`ok = false`), a ticker tick, or the done channel delivering
the shutdown signal. -/
inductive CollectorEvent (α : Type) where
  | item (v : α)
  | inputClosed
  | tick
  | done
deriving DecidableEq

/-- State of the `collectBatch` goroutine: the in-progress `eventbatch`, the
batches sent to the batch channel so far (in order), the items received from
the input channel so far (ghost record of consumption), and whether the loop
has returned. -/
structure CollectorState (α : Type) where
  eventbatch : List α
  flushed : List (List α)
  consumed : List α
  terminated : Bool
deriving DecidableEq

/-- Initial state of `collectBatch` (line 146): empty batch, nothing sent. -/
def initCollector {α : Type} : CollectorState α :=
  { eventbatch := [], flushed := [], consumed := [], terminated := false }

/-- The defensive loop-top check of `collectBatch` (lines 151-156): if the
in-progress batch has reached `batchMaxSize`, send it on the batch channel and
reset it, before blocking on the next `select`. -/
def sizeCheck {α : Type} (m : Int) (s : CollectorState α) : CollectorState α :=
  if s.terminated then s
  else if ((s.eventbatch.length : Int)) ≥ m then
    { s with flushed := s.flushed ++ [s.eventbatch], eventbatch := [] }
  else s

/-- The `select` body of `collectBatch` (lines 158-180): append a received
item; on input-channel closure send the last batch (if non-empty) and return;
on a tick flush a non-empty batch and reset; on the done signal return
immediately, whatever the in-progress batch holds. -/
def handleEvent {α : Type} (s : CollectorState α) (e : CollectorEvent α) :
    CollectorState α :=
  match e with
  | CollectorEvent.item v =>
      { s with eventbatch := s.eventbatch ++ [v], consumed := s.consumed ++ [v] }
  | CollectorEvent.inputClosed =>
      if s.eventbatch.length > 0 then
        { s with flushed := s.flushed ++ [s.eventbatch], terminated := true }
      else { s with terminated := true }
  | CollectorEvent.tick =>
      if s.eventbatch.length > 0 then
        { s with flushed := s.flushed ++ [s.eventbatch], eventbatch := [] }
      else s
  | CollectorEvent.done => { s with terminated := true }

/-- One full iteration of the `collectBatch` loop: handle one ready event,
then run the non-blocking loop-top size check that precedes the next
`select`. A returned (terminated) loop ignores further events. -/
def collectBatchStep {α : Type} (m : Int) (s : CollectorState α)
    (e : CollectorEvent α) : CollectorState α :=
  if s.terminated then s else sizeCheck m (handleEvent s e)

/-- Run of `collectBatch` over a trace of delivered events, starting from the
initial state (the loop-top check also runs once before the first `select`). -/
def collectBatchRun {α : Type} (m : Int) (events : List (CollectorEvent α)) :
    CollectorState α :=
  events.foldl (collectBatchStep m) (sizeCheck m initCollector)

/-- The shutdown event `Close` makes ready for the collector: `Close` closes
the done channel (line 234), so the collector's `done` case fires; `Close`
does not close the input channel. -/
def closeSignal {α : Type} : CollectorEvent α := CollectorEvent.done

/-- One event a `select` iteration of `consumeBatch` (lines 187-227) can react
to: a batch dequeued from the batch channel together with the queue depths
`len(rc.inputChan)` and `len(rc.batchChan)` read right after it (lines
196-197), the batch channel reported closed, or the done signal. -/
inductive WorkerEvent (α : Type) where
  | deq (eb : List α) (eventQueueLength batchQueueLength : Nat)
  | chanClosed
  | done
deriving DecidableEq

/-- State of one `consumeBatch` worker: whether its loop has returned, the
levels of the log entries it emitted (in order), and the batches it passed to
`PutMulti` (in order). -/
structure WorkerState (α : Type) where
  terminated : Bool
  logs : List LogLevel
  putCalls : List (List α)
deriving DecidableEq

/-- Initial state of a `consumeBatch` worker. -/
def initWorker {α : Type} : WorkerState α :=
  { terminated := false, logs := [], putCalls := [] }

/-- Emission of one log entry, guarded by `rc.log != nil` as in the source. -/
def emitLog (ctx : PressureContext) (logs : List LogLevel) (l : LogLevel) :
    List LogLevel :=
  if ctx.logPresent then logs ++ [l] else logs

/-- One iteration of the `consumeBatch` loop (lines 184-229), parametrised by
the sink: `sink eb = some e` models `PutMulti(eb)` returning error `e`. On a
dequeued batch the worker first emits the load-monitor entry — a warning when
a queue depth exceeds `int(math.Round(monitorWarningStart * capacity))`
(lines 199-209), an info entry otherwise — then the delivery info entry
(line 212), then calls `PutMulti` and on failure emits an error entry and
continues the loop (lines 215-220). On channel closure or the done signal it
logs and returns. -/
def consumeBatchStep {α : Type} (ctx : PressureContext)
    (sink : List α → Option GoError) (s : WorkerState α) (e : WorkerEvent α) :
    WorkerState α :=
  if s.terminated then s else
  match e with
  | WorkerEvent.deq eb eventQueueLength batchQueueLength =>
      let logs1 :=
        if ((eventQueueLength : Int)) >
              mathRound (monitorWarningStart * (ctx.batchMaxSize : Rat)) ∨
            ((batchQueueLength : Int)) >
              mathRound (monitorWarningStart * (ctx.maxBatchesInQueue : Rat)) then
          emitLog ctx s.logs LogLevel.warn
        else
          emitLog ctx s.logs LogLevel.info
      let logs2 := emitLog ctx logs1 LogLevel.info
      let putCalls2 := s.putCalls ++ [eb]
      match sink eb with
      | some _ =>
          { terminated := false, logs := emitLog ctx logs2 LogLevel.error,
            putCalls := putCalls2 }
      | none => { terminated := false, logs := logs2, putCalls := putCalls2 }
  | WorkerEvent.chanClosed =>
      { s with terminated := true, logs := emitLog ctx s.logs LogLevel.info }
  | WorkerEvent.done =>
      { s with terminated := true, logs := emitLog ctx s.logs LogLevel.info }

/-! ### Behaviour of single `collectBatch` iterations -/

lemma collectBatchStep_item_lt {α : Type} (m : Int) (s : CollectorState α) (v : α)
    (hterm : s.terminated = false) (h : (s.eventbatch.length : Int) + 1 < m) :
    collectBatchStep m s (CollectorEvent.item v) =
      { s with eventbatch := s.eventbatch ++ [v], consumed := s.consumed ++ [v] } := by
  have hc : ¬ ((((s.eventbatch ++ [v]).length : Int)) ≥ m) := by
    simp only [List.length_append, List.length_cons, List.length_nil]
    omega
  simp [collectBatchStep, handleEvent, sizeCheck, hterm, hc]
  omega

lemma collectBatchStep_item_ge {α : Type} (m : Int) (s : CollectorState α) (v : α)
    (hterm : s.terminated = false) (h : m ≤ (s.eventbatch.length : Int) + 1) :
    collectBatchStep m s (CollectorEvent.item v) =
      { s with
        eventbatch := []
        flushed := s.flushed ++ [s.eventbatch ++ [v]]
        consumed := s.consumed ++ [v] } := by
  have hc : (((s.eventbatch ++ [v]).length : Int)) ≥ m := by
    simp only [List.length_append, List.length_cons, List.length_nil]
    omega
  simp [collectBatchStep, handleEvent, sizeCheck, hterm, hc]
  omega

lemma collectBatchStep_tick_pos {α : Type} (m : Int) (s : CollectorState α)
    (hterm : s.terminated = false) (hm : 0 < m) (hlen : 0 < s.eventbatch.length) :
    collectBatchStep m s CollectorEvent.tick =
      { s with eventbatch := [], flushed := s.flushed ++ [s.eventbatch] } := by
  have hc : ¬ (((([] : List α).length : Int)) ≥ m) := by simp; omega
  simp [collectBatchStep, handleEvent, sizeCheck, hterm, hlen, hc]
  omega

lemma collectBatchStep_tick_nil {α : Type} (m : Int) (s : CollectorState α)
    (hterm : s.terminated = false) (hm : 0 < m) (hnil : s.eventbatch = []) :
    collectBatchStep m s CollectorEvent.tick = s := by
  simp [collectBatchStep, handleEvent, sizeCheck, hterm, hnil]
  omega

lemma collectBatchStep_done {α : Type} (m : Int) (s : CollectorState α)
    (hterm : s.terminated = false) :
    collectBatchStep m s CollectorEvent.done = { s with terminated := true } := by
  simp [collectBatchStep, handleEvent, sizeCheck, hterm]

lemma collectBatchStep_inputClosed_pos {α : Type} (m : Int) (s : CollectorState α)
    (hterm : s.terminated = false) (hlen : 0 < s.eventbatch.length) :
    collectBatchStep m s CollectorEvent.inputClosed =
      { s with flushed := s.flushed ++ [s.eventbatch], terminated := true } := by
  simp [collectBatchStep, handleEvent, sizeCheck, hterm, hlen]

lemma collectBatchStep_inputClosed_nil {α : Type} (m : Int) (s : CollectorState α)
    (hterm : s.terminated = false) (hnil : s.eventbatch = []) :
    collectBatchStep m s CollectorEvent.inputClosed = { s with terminated := true } := by
  simp [collectBatchStep, handleEvent, sizeCheck, hterm, hnil]

lemma collectBatchStep_terminated {α : Type} (m : Int) (s : CollectorState α)
    (hterm : s.terminated = true) (e : CollectorEvent α) :
    collectBatchStep m s e = s := by
  simp [collectBatchStep, hterm]

lemma sizeCheck_init {α : Type} (m : Int) (hm : 0 < m) :
    sizeCheck m (initCollector (α := α)) = initCollector := by
  have hc : ¬ (((([] : List α).length : Int)) ≥ m) := by simp; omega
  simp [sizeCheck, initCollector, hc]
  omega

/-! ### Behaviour of `collectBatch` over whole traces -/

lemma foldl_items_lt {α : Type} (m : Int) (vs : List α) :
    ∀ (s : CollectorState α), s.terminated = false →
      ((s.eventbatch.length : Int) + vs.length < m) →
      List.foldl (collectBatchStep m) s (vs.map CollectorEvent.item) =
        { s with eventbatch := s.eventbatch ++ vs, consumed := s.consumed ++ vs } := by
  induction vs with
  | nil =>
      intro s hterm h
      simp
  | cons v rest ih =>
      intro s hterm h
      simp only [List.length_cons] at h
      push_cast at h
      rw [List.map_cons, List.foldl_cons]
      rw [collectBatchStep_item_lt m s v hterm (by omega)]
      rw [ih _ (by exact hterm) (by simp; push_cast; omega)]
      simp

lemma foldl_items_flush {α : Type} (m : Int) (vs : List α) :
    ∀ (s : CollectorState α), s.terminated = false → vs ≠ [] →
      ((s.eventbatch.length : Int) + vs.length = m) →
      List.foldl (collectBatchStep m) s (vs.map CollectorEvent.item) =
        { s with
          eventbatch := []
          flushed := s.flushed ++ [s.eventbatch ++ vs]
          consumed := s.consumed ++ vs } := by
  induction vs with
  | nil =>
      intro s _ hne _
      exact absurd rfl hne
  | cons v rest ih =>
      intro s hterm _ h
      simp only [List.length_cons] at h
      push_cast at h
      rw [List.map_cons, List.foldl_cons]
      cases rest with
      | nil =>
          have harg : m ≤ (s.eventbatch.length : Int) + 1 := by
            simp only [List.length_nil, Nat.cast_zero, zero_add] at h
            omega
          rw [collectBatchStep_item_ge m s v hterm harg]
          simp
      | cons w ws =>
          have harg : (s.eventbatch.length : Int) + 1 < m := by
            simp only [List.length_cons] at h
            push_cast at h
            omega
          rw [collectBatchStep_item_lt m s v hterm harg]
          have harg2 :
              ((({ s with
                  eventbatch := s.eventbatch ++ [v]
                  consumed := s.consumed ++ [v] } :
                CollectorState α).eventbatch.length : Int) + ((w :: ws).length : Int) = m) := by
            simp only [List.length_append, List.length_cons, List.length_nil] at h ⊢
            push_cast at h ⊢
            omega
          rw [ih _ (by exact hterm) (by simp) harg2]
          simp

lemma collectBatchStep_inv {α : Type} (m : Int) (hm : 0 < m) (s : CollectorState α)
    (e : CollectorEvent α)
    (h1 : s.terminated = false → (s.eventbatch.length : Int) < m)
    (h2 : ∀ b ∈ s.flushed, (b.length : Int) ≤ m) :
    ((collectBatchStep m s e).terminated = false →
      ((collectBatchStep m s e).eventbatch.length : Int) < m) ∧
    ∀ b ∈ (collectBatchStep m s e).flushed, (b.length : Int) ≤ m := by
  by_cases hterm : s.terminated = true
  · rw [collectBatchStep_terminated m s hterm e]
    exact ⟨h1, h2⟩
  · have hterm' : s.terminated = false := by simpa using hterm
    have hlt := h1 hterm'
    cases e with
    | item v =>
        by_cases hcase : m ≤ (s.eventbatch.length : Int) + 1
        · rw [collectBatchStep_item_ge m s v hterm' hcase]
          refine ⟨fun _ => by simp; omega, ?_⟩
          intro b hb
          simp only [List.mem_append, List.mem_singleton] at hb
          rcases hb with hb | hb
          · exact h2 b hb
          · subst hb
            simp only [List.length_append, List.length_cons, List.length_nil]
            push_cast
            omega
        · rw [collectBatchStep_item_lt m s v hterm' (by omega)]
          refine ⟨fun _ => by simp; push_cast; omega, ?_⟩
          simpa using h2
    | tick =>
        by_cases hlen : 0 < s.eventbatch.length
        · rw [collectBatchStep_tick_pos m s hterm' hm hlen]
          refine ⟨fun _ => by simp; omega, ?_⟩
          intro b hb
          simp only [List.mem_append, List.mem_singleton] at hb
          rcases hb with hb | hb
          · exact h2 b hb
          · subst hb
            omega
        · have hnil : s.eventbatch = [] := List.length_eq_zero.mp (by omega)
          rw [collectBatchStep_tick_nil m s hterm' hm hnil]
          exact ⟨h1, h2⟩
    | inputClosed =>
        by_cases hlen : 0 < s.eventbatch.length
        · rw [collectBatchStep_inputClosed_pos m s hterm' hlen]
          refine ⟨fun hf => by simp at hf, ?_⟩
          intro b hb
          simp only [List.mem_append, List.mem_singleton] at hb
          rcases hb with hb | hb
          · exact h2 b hb
          · subst hb
            omega
        · have hnil : s.eventbatch = [] := List.length_eq_zero.mp (by omega)
          rw [collectBatchStep_inputClosed_nil m s hterm' hnil]
          exact ⟨fun hf => by simp at hf, h2⟩
    | done =>
        rw [collectBatchStep_done m s hterm']
        exact ⟨fun hf => by simp at hf, by simpa using h2⟩

lemma foldl_inv {α : Type} (m : Int) (hm : 0 < m) (events : List (CollectorEvent α)) :
    ∀ (s : CollectorState α),
      (s.terminated = false → (s.eventbatch.length : Int) < m) →
      (∀ b ∈ s.flushed, (b.length : Int) ≤ m) →
      ((List.foldl (collectBatchStep m) s events).terminated = false →
        ((List.foldl (collectBatchStep m) s events).eventbatch.length : Int) < m) ∧
      ∀ b ∈ (List.foldl (collectBatchStep m) s events).flushed, (b.length : Int) ≤ m := by
  induction events with
  | nil =>
      intro s h1 h2
      exact ⟨h1, h2⟩
  | cons e rest ih =>
      intro s h1 h2
      rw [List.foldl_cons]
      have hstep := collectBatchStep_inv m hm s e h1 h2
      exact ih _ hstep.1 hstep.2

/-! ### Conservation of items by `collectBatch` -/

lemma sizeCheck_terminated {α : Type} (m : Int) (s : CollectorState α) :
    (sizeCheck m s).terminated = s.terminated := by
  unfold sizeCheck
  split_ifs <;> rfl

lemma sizeCheck_flatten {α : Type} (m : Int) (s : CollectorState α) :
    (sizeCheck m s).flushed.flatten ++ (sizeCheck m s).eventbatch =
      s.flushed.flatten ++ s.eventbatch := by
  unfold sizeCheck
  split_ifs <;> simp

lemma sizeCheck_consumed {α : Type} (m : Int) (s : CollectorState α) :
    (sizeCheck m s).consumed = s.consumed := by
  unfold sizeCheck
  split_ifs <;> rfl

lemma handleEvent_conserve {α : Type} (s : CollectorState α) (e : CollectorEvent α)
    (hterm : s.terminated = false)
    (hh : s.flushed.flatten ++ s.eventbatch = s.consumed) :
    (handleEvent s e).terminated = false →
      (handleEvent s e).flushed.flatten ++ (handleEvent s e).eventbatch =
        (handleEvent s e).consumed := by
  cases e with
  | item v =>
      intro _
      simp only [handleEvent, List.append_assoc, ← hh]
  | inputClosed =>
      intro hf
      unfold handleEvent at hf
      split_ifs at hf <;> simp at hf
  | tick =>
      intro _
      unfold handleEvent
      split_ifs with hl
      · simp [List.flatten_append, ← hh]
      · exact hh
  | done =>
      intro hf
      simp [handleEvent] at hf

lemma collectBatchStep_conserve {α : Type} (m : Int) (s : CollectorState α)
    (e : CollectorEvent α)
    (h : s.terminated = false → s.flushed.flatten ++ s.eventbatch = s.consumed) :
    (collectBatchStep m s e).terminated = false →
      (collectBatchStep m s e).flushed.flatten ++ (collectBatchStep m s e).eventbatch =
        (collectBatchStep m s e).consumed := by
  by_cases hterm : s.terminated = true
  · rw [collectBatchStep_terminated m s hterm e]
    exact h
  · have hterm' : s.terminated = false := by simpa using hterm
    have hh := h hterm'
    intro hf
    have hstep : collectBatchStep m s e = sizeCheck m (handleEvent s e) := by
      simp [collectBatchStep, hterm']
    have hf' : (handleEvent s e).terminated = false := by
      rw [hstep, sizeCheck_terminated] at hf
      exact hf
    have hhe := handleEvent_conserve s e hterm' hh hf'
    rw [hstep, sizeCheck_consumed]
    calc (sizeCheck m (handleEvent s e)).flushed.flatten ++
          (sizeCheck m (handleEvent s e)).eventbatch
        = (handleEvent s e).flushed.flatten ++ (handleEvent s e).eventbatch :=
          sizeCheck_flatten m (handleEvent s e)
      _ = (handleEvent s e).consumed := hhe

lemma foldl_conserve {α : Type} (m : Int) (events : List (CollectorEvent α)) :
    ∀ (s : CollectorState α),
      (s.terminated = false → s.flushed.flatten ++ s.eventbatch = s.consumed) →
      (List.foldl (collectBatchStep m) s events).terminated = false →
        (List.foldl (collectBatchStep m) s events).flushed.flatten ++
            (List.foldl (collectBatchStep m) s events).eventbatch =
          (List.foldl (collectBatchStep m) s events).consumed := by
  induction events with
  | nil =>
      intro s h
      exact h
  | cons e rest ih =>
      intro s h
      rw [List.foldl_cons]
      exact ih _ (collectBatchStep_conserve m s e h)

/-! ### The load monitor threshold and `consumeBatch` iterations -/

lemma gt_mathRound_iff (x : Int) (e : Nat) (hx : 0 ≤ x) :
    mathRound (monitorWarningStart * (x : Rat)) < (e : Int) ↔ 8 * x + 5 < 10 * (e : Int) := by
  have hxq : (0 : Rat) ≤ (x : Rat) := by exact_mod_cast hx
  have hq : (0 : Rat) ≤ monitorWarningStart * (x : Rat) := by
    unfold monitorWarningStart
    exact mul_nonneg (by norm_num) hxq
  unfold mathRound
  rw [if_pos hq]
  have hkey : monitorWarningStart * (x : Rat) + 1/2 = ((8 * x + 5 : Int) : Rat) / 10 := by
    unfold monitorWarningStart
    push_cast
    ring
  rw [hkey, Int.floor_lt, div_lt_iff₀ (by norm_num : (0 : Rat) < 10)]
  constructor
  · intro h
    have h2 : (8 * x + 5 : Int) < (e : Int) * 10 := by exact_mod_cast h
    omega
  · intro h
    have h2 : (8 * x + 5 : Int) < (e : Int) * 10 := by omega
    exact_mod_cast h2

lemma monitorCond_iff (ctx : PressureContext) (eqL bqL : Nat)
    (hm : 0 ≤ ctx.batchMaxSize) (hq : 0 ≤ ctx.maxBatchesInQueue) :
    (((eqL : Int) > mathRound (monitorWarningStart * (ctx.batchMaxSize : Rat))) ∨
      ((bqL : Int) > mathRound (monitorWarningStart * (ctx.maxBatchesInQueue : Rat)))) ↔
    (8 * ctx.batchMaxSize + 5 < 10 * (eqL : Int) ∨
      8 * ctx.maxBatchesInQueue + 5 < 10 * (bqL : Int)) := by
  rw [gt_iff_lt, gt_iff_lt, gt_mathRound_iff ctx.batchMaxSize eqL hm,
    gt_mathRound_iff ctx.maxBatchesInQueue bqL hq]

lemma consumeBatchStep_deq_basic {α : Type} (ctx : PressureContext)
    (sink : List α → Option GoError) (s : WorkerState α) (eb : List α) (eqL bqL : Nat)
    (hterm : s.terminated = false) :
    (consumeBatchStep ctx sink s (WorkerEvent.deq eb eqL bqL)).terminated = false ∧
    (consumeBatchStep ctx sink s (WorkerEvent.deq eb eqL bqL)).putCalls =
      s.putCalls ++ [eb] := by
  cases hsk : sink eb <;>
    simp only [consumeBatchStep, hterm, Bool.false_eq_true, if_false, hsk] <;> simp

lemma consumeBatchStep_deq_fail_log {α : Type} (ctx : PressureContext)
    (sink : List α → Option GoError) (s : WorkerState α) (eb : List α) (eqL bqL : Nat)
    (hterm : s.terminated = false) (hlog : ctx.logPresent = true)
    (er : GoError) (hsk : sink eb = some er) :
    (consumeBatchStep ctx sink s (WorkerEvent.deq eb eqL bqL)).logs.getLast? =
      some LogLevel.error := by
  simp only [consumeBatchStep, hterm, Bool.false_eq_true, if_false, hsk]
  split_ifs <;> simp [emitLog, hlog]

lemma consumeBatchStep_monitor_head {α : Type} (ctx : PressureContext)
    (sink : List α → Option GoError) (eb : List α) (eqL bqL : Nat)
    (hlog : ctx.logPresent = true) :
    (consumeBatchStep ctx sink initWorker (WorkerEvent.deq eb eqL bqL)).logs.head? =
      some (if ((eqL : Int) > mathRound (monitorWarningStart * (ctx.batchMaxSize : Rat)) ∨
          (bqL : Int) > mathRound (monitorWarningStart * (ctx.maxBatchesInQueue : Rat))) then
        LogLevel.warn else LogLevel.info) := by
  cases hsk : sink eb <;>
    simp only [consumeBatchStep, initWorker, Bool.false_eq_true, if_false, hsk] <;>
    split_ifs with hcond <;> simp [emitLog, hlog, hcond]

lemma collectRound {α : Type} (m : Int) (hm : 0 < m) (vs : List α) (hne : vs ≠ [])
    (hlt : (vs.length : Int) < m) (s : CollectorState α)
    (hterm : s.terminated = false) (hnil : s.eventbatch = []) :
    List.foldl (collectBatchStep m) s (vs.map CollectorEvent.item ++ [CollectorEvent.tick]) =
      { s with
        eventbatch := []
        flushed := s.flushed ++ [vs]
        consumed := s.consumed ++ vs } := by
  rw [List.foldl_append]
  rw [foldl_items_lt m vs s hterm (by rw [hnil]; simp; omega)]
  rw [List.foldl_cons, List.foldl_nil]
  rw [collectBatchStep_tick_pos m
    { eventbatch := s.eventbatch ++ vs, flushed := s.flushed, consumed := s.consumed ++ vs,
      terminated := s.terminated }
    hterm hm (by simpa [hnil, List.length_pos] using hne)]
  simp [hnil]

/-! ### The claims -/

/-- Claim C1 (refuted by the code; evidence for the code bug): with the default
`batchMaxSize = 50`, after the collector receives one item, delivering the
shutdown signal that `Close` actually produces — the closing of the done
channel — terminates the collector with the consumed item still in the
in-progress batch and nothing flushed, so the sink never receives the final
batch of size 1 that the claim promises. The flush-before-shutdown path exists
only for closure of the input channel, which `Close` does not close. -/
theorem c1_close_signal_drops_partial_batch :
    (collectBatchRun 50 [CollectorEvent.item (0 : Int), closeSignal]).flushed = [] ∧
    (collectBatchRun 50 [CollectorEvent.item (0 : Int), closeSignal]).terminated = true ∧
    (collectBatchRun 50 [CollectorEvent.item (0 : Int), closeSignal]).consumed = [0] ∧
    (collectBatchRun 50 [CollectorEvent.item (0 : Int),
        CollectorEvent.inputClosed]).flushed = [[0]] := by
  decide

/-- Claim C2 (refuted by the code; evidence for the code bug): `Add` on a nil
context does not return `ErrBackPressureInit`; it dereferences the nil receiver
at `rc.log` and panics. -/
theorem c2_add_nil_panics (v : Int) :
    Add (α := Int) none v = Except.error GoPanic.nilPointerDereference ∧
    Add (α := Int) none v ≠ Except.ok (some GoError.errBackPressureInit) := by
  refine ⟨rfl, ?_⟩
  intro h
  simp [Add, derefLogPresent] at h

/-- Claim C3 counterexample: `BatchMaxSize 0` is an invalid threshold
(`batchMaxSize ≤ 0`), yet `NewBackpressureContext` returns a nil error, so
construction does not fail on invalid thresholds as the claim states. -/
theorem c3_counterexample :
    (applyOptions [BatchMaxSize 0]).BatchMaxSize ≤ 0 ∧
    (NewBackpressureContext [BatchMaxSize 0]).2 = none := by
  decide

/-- Claim C3 (amended): construction never fails — `NewBackpressureContext`
performs no validation and returns a nil error for every options list, valid
or not. -/
theorem c3_construction_never_fails (opts : List (Options → Options)) :
    (NewBackpressureContext opts).2 = none := rfl

/-- Claim C4: with `batchMaxSize = m > 0`, a trace of exactly `m` received
items yields exactly one batch of those `m` items pushed to the batch queue
with the in-progress batch reset to empty and no tick needed; whenever the
in-progress batch reaches size `m` on an item, it is pushed whole and reset;
and over every trace, every pushed batch has at most `m` items. -/
theorem c4_size_triggered_flush (m : Int) (hm : 0 < m) (vs : List Int)
    (hlen : (vs.length : Int) = m) (events : List (CollectorEvent Int)) :
    (collectBatchRun m (vs.map CollectorEvent.item)).flushed = [vs] ∧
    (collectBatchRun m (vs.map CollectorEvent.item)).eventbatch = [] ∧
    (∀ (s : CollectorState Int) (v : Int), s.terminated = false →
      (s.eventbatch.length : Int) + 1 = m →
      collectBatchStep m s (CollectorEvent.item v) =
        { s with
          eventbatch := []
          flushed := s.flushed ++ [s.eventbatch ++ [v]]
          consumed := s.consumed ++ [v] }) ∧
    ∀ b ∈ (collectBatchRun m events).flushed, (b.length : Int) ≤ m := by
  have hne : vs ≠ [] := by
    intro hcon
    rw [hcon] at hlen
    simp at hlen
    omega
  have hrun : collectBatchRun m (vs.map CollectorEvent.item) =
      { (initCollector : CollectorState Int) with
        eventbatch := []
        flushed := initCollector.flushed ++ [initCollector.eventbatch ++ vs]
        consumed := initCollector.consumed ++ vs } := by
    unfold collectBatchRun
    rw [sizeCheck_init m hm]
    exact foldl_items_flush m vs initCollector rfl hne (by simp [initCollector]; omega)
  refine ⟨?_, ?_, ?_, ?_⟩
  · rw [hrun]
    simp [initCollector]
  · rw [hrun]
  · intro s v hterm hcase
    exact collectBatchStep_item_ge m s v hterm (by omega)
  · unfold collectBatchRun
    refine (foldl_inv m hm events (sizeCheck m initCollector) ?_ ?_).2
    · rw [sizeCheck_init m hm]
      intro _
      simp [initCollector]
      omega
    · rw [sizeCheck_init m hm]
      simp [initCollector]

/-- Witness for C4 at `m = 2`, items `[5, 6]`. -/
theorem c4_size_triggered_flush_witness :
    (collectBatchRun 2 (([5, 6] : List Int).map CollectorEvent.item)).flushed = [[5, 6]] ∧
    (collectBatchRun 2 (([5, 6] : List Int).map CollectorEvent.item)).eventbatch = [] ∧
    (∀ (s : CollectorState Int) (v : Int), s.terminated = false →
      (s.eventbatch.length : Int) + 1 = 2 →
      collectBatchStep 2 s (CollectorEvent.item v) =
        { s with
          eventbatch := []
          flushed := s.flushed ++ [s.eventbatch ++ [v]]
          consumed := s.consumed ++ [v] }) ∧
    ∀ b ∈ (collectBatchRun 2 [CollectorEvent.item (7 : Int), CollectorEvent.tick]).flushed,
      (b.length : Int) ≤ 2 :=
  c4_size_triggered_flush 2 (by decide) ([5, 6] : List Int) (by decide)
    [CollectorEvent.item (7 : Int), CollectorEvent.tick]

/-- Claim C5: as long as the collector has not terminated, the concatenation
of all batches pushed to the batch queue followed by the in-progress batch is
exactly the sequence of items consumed from the input channel, in order — so
every consumed item lies in exactly one batch and order is preserved. -/
theorem c5_collector_conserves_items (m : Int) (events : List (CollectorEvent Int))
    (h : (collectBatchRun m events).terminated = false) :
    (collectBatchRun m events).flushed.flatten ++ (collectBatchRun m events).eventbatch =
      (collectBatchRun m events).consumed := by
  unfold collectBatchRun at h ⊢
  refine foldl_conserve m events (sizeCheck m initCollector) ?_ h
  intro _
  rw [sizeCheck_flatten, sizeCheck_consumed]
  simp [initCollector]

/-- Witness for C5 at `m = 3` with two consumed items. -/
theorem c5_collector_conserves_items_witness :
    (collectBatchRun 3 [CollectorEvent.item (1 : Int), CollectorEvent.item 2]).terminated
        = false ∧
    (collectBatchRun 3 [CollectorEvent.item (1 : Int),
          CollectorEvent.item 2]).flushed.flatten ++
        (collectBatchRun 3 [CollectorEvent.item (1 : Int), CollectorEvent.item 2]).eventbatch =
      (collectBatchRun 3 [CollectorEvent.item (1 : Int), CollectorEvent.item 2]).consumed :=
  ⟨by decide, c5_collector_conserves_items 3 _ (by decide)⟩

/-- Claim C6: when `PutMulti` fails on a dequeued batch, the worker emits an
error-level log entry as its last log action, does not terminate, passes the
batch to the sink exactly once (no retry, no requeue), continues its loop and
processes the next batch; and a sink failure is never surfaced to `Add`, whose
result on a live context is always a nil error. -/
theorem c6_sink_failure_contained (ctx : PressureContext)
    (sink : List Int → Option GoError) (b b2 : List Int) (eq1 bq1 eq2 bq2 : Nat)
    (hlog : ctx.logPresent = true) (er : GoError) (hfail : sink b = some er) :
    (consumeBatchStep ctx sink initWorker (WorkerEvent.deq b eq1 bq1)).terminated = false ∧
    (consumeBatchStep ctx sink initWorker (WorkerEvent.deq b eq1 bq1)).logs.getLast? =
      some LogLevel.error ∧
    (consumeBatchStep ctx sink initWorker (WorkerEvent.deq b eq1 bq1)).putCalls = [b] ∧
    (consumeBatchStep ctx sink
        (consumeBatchStep ctx sink initWorker (WorkerEvent.deq b eq1 bq1))
        (WorkerEvent.deq b2 eq2 bq2)).terminated = false ∧
    (consumeBatchStep ctx sink
        (consumeBatchStep ctx sink initWorker (WorkerEvent.deq b eq1 bq1))
        (WorkerEvent.deq b2 eq2 bq2)).putCalls = [b, b2] ∧
    (∀ (rc : PressureContext) (v : Int), Add (some rc) v = Except.ok none) := by
  have h1 := consumeBatchStep_deq_basic ctx sink initWorker b eq1 bq1 rfl
  have h2 := consumeBatchStep_deq_basic ctx sink
    (consumeBatchStep ctx sink initWorker (WorkerEvent.deq b eq1 bq1)) b2 eq2 bq2 h1.1
  refine ⟨h1.1, ?_, ?_, h2.1, ?_, ?_⟩
  · exact consumeBatchStep_deq_fail_log ctx sink initWorker b eq1 bq1 rfl hlog er hfail
  · rw [h1.2]
    simp [initWorker]
  · rw [h2.2, h1.2]
    simp [initWorker]
  · intro rc v
    rfl

/-- Witness for C6: an always-failing sink and two dequeued batches. -/
theorem c6_sink_failure_contained_witness :
    (consumeBatchStep (NewBackpressureContext [Log true]).1
        (fun _ => some GoError.sinkError) initWorker
        (WorkerEvent.deq [(1 : Int)] 0 0)).terminated = false ∧
    (consumeBatchStep (NewBackpressureContext [Log true]).1
        (fun _ => some GoError.sinkError) initWorker
        (WorkerEvent.deq [(1 : Int)] 0 0)).logs.getLast? = some LogLevel.error ∧
    (consumeBatchStep (NewBackpressureContext [Log true]).1
        (fun _ => some GoError.sinkError) initWorker
        (WorkerEvent.deq [(1 : Int)] 0 0)).putCalls = [[1]] ∧
    (consumeBatchStep (NewBackpressureContext [Log true]).1
        (fun _ => some GoError.sinkError)
        (consumeBatchStep (NewBackpressureContext [Log true]).1
          (fun _ => some GoError.sinkError) initWorker (WorkerEvent.deq [(1 : Int)] 0 0))
        (WorkerEvent.deq [2] 0 0)).terminated = false ∧
    (consumeBatchStep (NewBackpressureContext [Log true]).1
        (fun _ => some GoError.sinkError)
        (consumeBatchStep (NewBackpressureContext [Log true]).1
          (fun _ => some GoError.sinkError) initWorker (WorkerEvent.deq [(1 : Int)] 0 0))
        (WorkerEvent.deq [2] 0 0)).putCalls = [[1], [2]] ∧
    (∀ (rc : PressureContext) (v : Int), Add (some rc) v = Except.ok none) :=
  c6_sink_failure_contained (NewBackpressureContext [Log true]).1
    (fun _ => some GoError.sinkError) [1] [2] 0 0 0 0 (by decide) GoError.sinkError rfl

/-- Claim C7 counterexample: with `maxBatchesInQueue = 2` and a batch-queue
depth of 2 the occupancy ratio is `2/2 = 1 > 0.8`, yet the worker emits an
info-level monitor entry, because the code compares the depth against
`int(math.Round(0.8 * 2)) = 2` and `2 > 2` is false — refuting the claim that
a warning is emitted whenever a ratio exceeds 0.8. -/
theorem c7_counterexample :
    ((2 : Rat) / 2 > monitorWarningStart) ∧
    (consumeBatchStep (NewBackpressureContext [MaxBatchesInQueue 2, Log true]).1
        (fun _ => none) initWorker (WorkerEvent.deq [(1 : Int)] 0 2)).logs.head? =
      some LogLevel.info := by
  constructor
  · norm_num [monitorWarningStart]
  · have h1 : mathRound (monitorWarningStart * (2 : Rat)) = 2 := by
      unfold mathRound monitorWarningStart
      norm_num
    have h2 : mathRound (monitorWarningStart * (50 : Rat)) = 40 := by
      unfold mathRound monitorWarningStart
      norm_num
    simp [consumeBatchStep, NewBackpressureContext, applyOptions, MaxBatchesInQueue, Log,
      initWorker, emitLog, h1, h2]

/-- Claim C7 (amended): for nonnegative capacities, the monitor entry emitted
before `putMulti` is warning-level iff `10 * itemQueueDepth > 8 * batchMaxSize + 5`
or `10 * batchQueueDepth > 8 * maxBatchesInQueue + 5` — that is, iff a depth
strictly exceeds `Round(0.8 * capacity)` with rounding half away from zero —
and info-level otherwise. -/
theorem c7_monitor_watermark (ctx : PressureContext) (sink : List Int → Option GoError)
    (eb : List Int) (eqL bqL : Nat) (hlog : ctx.logPresent = true)
    (hm : 0 ≤ ctx.batchMaxSize) (hq : 0 ≤ ctx.maxBatchesInQueue) :
    ((consumeBatchStep ctx sink initWorker (WorkerEvent.deq eb eqL bqL)).logs.head? =
        some LogLevel.warn ↔
      (8 * ctx.batchMaxSize + 5 < 10 * (eqL : Int) ∨
        8 * ctx.maxBatchesInQueue + 5 < 10 * (bqL : Int))) ∧
    ((consumeBatchStep ctx sink initWorker (WorkerEvent.deq eb eqL bqL)).logs.head? =
        some LogLevel.info ↔
      ¬ (8 * ctx.batchMaxSize + 5 < 10 * (eqL : Int) ∨
        8 * ctx.maxBatchesInQueue + 5 < 10 * (bqL : Int))) := by
  rw [consumeBatchStep_monitor_head ctx sink eb eqL bqL hlog]
  rw [← monitorCond_iff ctx eqL bqL hm hq]
  by_cases hcond : ((eqL : Int) > mathRound (monitorWarningStart * (ctx.batchMaxSize : Rat)) ∨
      (bqL : Int) > mathRound (monitorWarningStart * (ctx.maxBatchesInQueue : Rat)))
  · simp [hcond]
  · simp [hcond]

/-- Witness for C7 (amended) on a default-configuration context with empty queues. -/
theorem c7_monitor_watermark_witness :
    ((consumeBatchStep (NewBackpressureContext [Log true]).1 (fun _ => none) initWorker
        (WorkerEvent.deq ([] : List Int) 0 0)).logs.head? = some LogLevel.warn ↔
      (8 * (NewBackpressureContext [Log true]).1.batchMaxSize + 5 < 10 * ((0 : Nat) : Int) ∨
        8 * (NewBackpressureContext [Log true]).1.maxBatchesInQueue + 5 <
          10 * ((0 : Nat) : Int))) ∧
    ((consumeBatchStep (NewBackpressureContext [Log true]).1 (fun _ => none) initWorker
        (WorkerEvent.deq ([] : List Int) 0 0)).logs.head? = some LogLevel.info ↔
      ¬ (8 * (NewBackpressureContext [Log true]).1.batchMaxSize + 5 < 10 * ((0 : Nat) : Int) ∨
        8 * (NewBackpressureContext [Log true]).1.maxBatchesInQueue + 5 <
          10 * ((0 : Nat) : Int))) :=
  c7_monitor_watermark (NewBackpressureContext [Log true]).1 (fun _ => none) [] 0 0
    (by decide) (by decide) (by decide)

/-- Claim C8: on a tick the collector flushes a non-empty in-progress batch as
one batch and resets it; a tick with an empty batch leaves the state
unchanged; and the timer rearms, so a second round of items and a second tick
flushes a second batch. Fewer than `batchMaxSize` items followed by a tick
yield exactly one batch holding exactly those items. -/
theorem c8_time_triggered_flush (m : Int) (hm : 0 < m) (vs ws : List Int)
    (h1 : vs ≠ []) (h2 : (vs.length : Int) < m)
    (h3 : ws ≠ []) (h4 : (ws.length : Int) < m) :
    (collectBatchRun m (vs.map CollectorEvent.item ++ [CollectorEvent.tick])).flushed
        = [vs] ∧
    (collectBatchRun m (vs.map CollectorEvent.item ++ [CollectorEvent.tick])).eventbatch
        = [] ∧
    (collectBatchRun m ((vs.map CollectorEvent.item ++ [CollectorEvent.tick]) ++
        (ws.map CollectorEvent.item ++ [CollectorEvent.tick]))).flushed = [vs, ws] ∧
    collectBatchRun m [CollectorEvent.tick] = (initCollector : CollectorState Int) := by
  have hround1 := collectRound m hm vs h1 h2 initCollector rfl rfl
  refine ⟨?_, ?_, ?_, ?_⟩
  · unfold collectBatchRun
    rw [sizeCheck_init m hm, hround1]
    simp [initCollector]
  · unfold collectBatchRun
    rw [sizeCheck_init m hm, hround1]
  · unfold collectBatchRun
    rw [sizeCheck_init m hm, List.foldl_append, hround1]
    rw [collectRound m hm ws h3 h4 _ rfl rfl]
    simp [initCollector]
  · unfold collectBatchRun
    rw [sizeCheck_init m hm, List.foldl_cons, List.foldl_nil,
      collectBatchStep_tick_nil m initCollector rfl hm rfl]

/-- Witness for C8 at `m = 2` with singleton rounds. -/
theorem c8_time_triggered_flush_witness :
    (collectBatchRun 2 (([1] : List Int).map CollectorEvent.item ++
        [CollectorEvent.tick])).flushed = [[1]] ∧
    (collectBatchRun 2 (([1] : List Int).map CollectorEvent.item ++
        [CollectorEvent.tick])).eventbatch = [] ∧
    (collectBatchRun 2 ((([1] : List Int).map CollectorEvent.item ++ [CollectorEvent.tick]) ++
        (([2] : List Int).map CollectorEvent.item ++ [CollectorEvent.tick]))).flushed
        = [[1], [2]] ∧
    collectBatchRun 2 [CollectorEvent.tick] = (initCollector : CollectorState Int) :=
  c8_time_triggered_flush 2 (by decide) [1] [2] (by decide) (by decide) (by decide) (by decide)

/-- Claim C9: the constructor always builds the item queue as an unbuffered
channel (capacity 0), so the depth a worker reads there is 0; and with
`batchMaxSize ≥ 1` a worker seeing item-queue depth 0 emits a warning iff the
batch-queue depth alone exceeds the watermark of `maxBatchesInQueue`. -/
theorem c9_item_queue_unbuffered (opts : List (Options → Options))
    (ctx : PressureContext) (sink : List Int → Option GoError) (eb : List Int) (bqL : Nat)
    (hm : 1 ≤ ctx.batchMaxSize) (hq : 0 ≤ ctx.maxBatchesInQueue)
    (hlog : ctx.logPresent = true) :
    (NewBackpressureContext opts).1.inputChanCap = 0 ∧
    ((consumeBatchStep ctx sink initWorker (WorkerEvent.deq eb 0 bqL)).logs.head? =
        some LogLevel.warn ↔
      8 * ctx.maxBatchesInQueue + 5 < 10 * (bqL : Int)) := by
  refine ⟨rfl, ?_⟩
  rw [consumeBatchStep_monitor_head ctx sink eb 0 bqL hlog]
  have hno : ¬ (((0 : Nat) : Int) >
      mathRound (monitorWarningStart * (ctx.batchMaxSize : Rat))) := by
    rw [gt_iff_lt, gt_mathRound_iff ctx.batchMaxSize 0 (by omega)]
    push_cast
    omega
  by_cases hb : ((bqL : Int) > mathRound (monitorWarningStart * (ctx.maxBatchesInQueue : Rat)))
  · rw [if_pos (Or.inr hb)]
    simp only [Option.some.injEq, true_iff]
    exact (gt_mathRound_iff ctx.maxBatchesInQueue bqL hq).mp hb
  · rw [if_neg (by rintro (hc | hc); exacts [hno hc, hb hc])]
    constructor
    · intro hcontra
      exact absurd hcontra (by simp)
    · intro harith
      exact absurd ((gt_mathRound_iff ctx.maxBatchesInQueue bqL hq).mpr harith) hb

/-- Witness for C9 on a default-configuration context. -/
theorem c9_item_queue_unbuffered_witness :
    (NewBackpressureContext []).1.inputChanCap = 0 ∧
    ((consumeBatchStep (NewBackpressureContext [Log true]).1 (fun _ => none) initWorker
        (WorkerEvent.deq ([] : List Int) 0 0)).logs.head? = some LogLevel.warn ↔
      8 * (NewBackpressureContext [Log true]).1.maxBatchesInQueue + 5 <
        10 * ((0 : Nat) : Int)) :=
  c9_item_queue_unbuffered [] (NewBackpressureContext [Log true]).1 (fun _ => none) [] 0
    (by decide) (by decide) (by decide)

/-- Claim C10: the first `Close` on a context whose done channel is open
succeeds and marks the done channel closed; a second `Close` on the resulting
context panics by closing an already-closed channel; and `Close` on a nil
context is a no-op that does not panic. -/
theorem c10_close_once_then_panic (c : PressureContext) (h : c.doneChanClosed = false) :
    Close (some c) = Except.ok (some { c with doneChanClosed := true }) ∧
    Close (some { c with doneChanClosed := true }) =
      Except.error GoPanic.closeOfClosedChannel ∧
    Close (none : Option PressureContext) = Except.ok none := by
  refine ⟨?_, ?_, rfl⟩
  · simp [Close, h]
  · simp [Close]

/-- Witness for C10 on the freshly constructed default context. -/
theorem c10_close_once_then_panic_witness :
    Close (some (NewBackpressureContext []).1) =
      Except.ok (some { (NewBackpressureContext []).1 with doneChanClosed := true }) ∧
    Close (some { (NewBackpressureContext []).1 with doneChanClosed := true }) =
      Except.error GoPanic.closeOfClosedChannel ∧
    Close (none : Option PressureContext) = Except.ok none :=
  c10_close_once_then_panic (NewBackpressureContext []).1 rfl

end Backpressure
